import Mathlib

/-!
# go-iam-examples: the guarded server and the probe client

A shallow embedding of `golang/main.go` (a Fiber server whose single middleware
authenticates every request through the go-iam SDK) and of
`golang/client/httpclient.go` (a command-line client that sends one
authenticated GET request), with the properties of the repository's
specification stated and proved over it.

Go strings are embedded as Lean `String`s. The external collaborators (the
SDK's `Me`, the process environment, `net/http`) are parameters of the
embedding; every effect the programs perform on them is recorded in a trace.
-/

namespace GoIam

/-! ## `strings` -/

namespace strings

/-- Go `strings.HasPrefix`: `len(s) >= len(prefix) && s[:len(prefix)] == prefix`. -/
def HasPrefix (s pre : String) : Bool :=
  decide (pre.data.length ≤ s.data.length) && (s.data.take pre.data.length == pre.data)

/-- Go `strings.TrimPrefix`: `s[len(prefix):]` when `s` has the prefix, else `s`. -/
def TrimPrefix (s pre : String) : String :=
  if HasPrefix s pre then String.mk (s.data.drop pre.data.length) else s

end strings

/-! ## The guarded server (`golang/main.go`) -/

namespace Server

/-- The SDK's `goiam.User`; only the field the server reads is kept. -/
structure User where
  Name : String
  deriving DecidableEq, Repr

/-- The pair `(*goiam.User, error)` returned by `service.Me`: `user = none` is
the nil pointer, `err = none` is the nil error. -/
structure MeResult where
  user : Option User
  err : Option String
  deriving DecidableEq, Repr

/-- The SDK service; `Me` takes the token (the request context is not modelled). -/
structure Service where
  Me : String → MeResult

/-- A Go `interface{}` value as stored by `c.Locals`. -/
inductive Value where
  | nilValue
  | userPtr (p : Option User)
  | str (s : String)
  deriving DecidableEq, Repr

/-- An incoming request: method, path and the value of the `Authorization`
header as `c.Get` reads it (`none` when the header is absent). -/
structure Request where
  method : String
  path : String
  authorization : Option String
  deriving DecidableEq, Repr

/-- The part of `*fiber.Ctx` the program touches: the request, the response
status and body, and the per-request locals. -/
structure Ctx where
  req : Request
  status : Nat
  body : String
  locals : List (String × Value)
  deriving DecidableEq, Repr

/-- Observable calls made while a request is served. -/
inductive Event where
  | me (token : String)
  | handler
  deriving DecidableEq, Repr

/-- How the handler chain ended: it returned nil (the response is in the
context), no route matched after `c.Next()`, or it panicked. -/
inductive Result where
  | ok
  | notFound
  | panicked (msg : String)
  deriving DecidableEq, Repr

/-- The final context, the trace of calls and the result of serving a request. -/
structure Run where
  ctx : Ctx
  trace : List Event
  result : Result
  deriving DecidableEq, Repr

def StatusOK : Nat := 200
def StatusUnauthorized : Nat := 401

/-- A fresh context: Fiber's response status defaults to 200 with an empty body. -/
def newCtx (req : Request) : Ctx :=
  { req := req, status := StatusOK, body := "", locals := [] }

/-- The call `c.Get("Authorization")`: the header value, `""` when it is absent. -/
def Ctx.Get (c : Ctx) : String :=
  c.req.authorization.getD ""

/-- The call `c.Status(code)`. -/
def Ctx.Status (c : Ctx) (code : Nat) : Ctx :=
  { c with status := code }

/-- The call `c.SendString(s)`: sets the body. -/
def Ctx.SendString (c : Ctx) (s : String) : Ctx :=
  { c with body := s }

/-- The call `c.Locals(key, value)`: stores the value under the key. -/
def Ctx.setLocal (c : Ctx) (key : String) (v : Value) : Ctx :=
  { c with locals := (key, v) :: c.locals.filter (fun kv => kv.1 != key) }

/-- The call `c.Locals(key)`: the stored value, the nil interface when absent. -/
def Ctx.getLocal (c : Ctx) (key : String) : Value :=
  match c.locals.find? (fun kv => kv.1 == key) with
  | some kv => kv.2
  | none => Value.nilValue

/-- The handler registered by `app.Get("/", ...)`:
`c.SendString(fmt.Sprintf("Hello, %s!", c.Locals("user").(*goiam.User).Name))`.
The type assertion panics on anything that is not a `*goiam.User`; reading
`Name` through a nil pointer panics as well. -/
def rootHandler (c : Ctx) (trace : List Event) : Run :=
  let trace := trace ++ [Event.handler]
  match c.getLocal "user" with
  | Value.userPtr (some u) =>
    { ctx := c.SendString ("Hello, " ++ u.Name ++ "!"), trace := trace, result := Result.ok }
  | Value.userPtr none =>
    { ctx := c, trace := trace,
      result := Result.panicked "runtime error: invalid memory address or nil pointer dereference" }
  | Value.nilValue =>
    { ctx := c, trace := trace,
      result := Result.panicked "interface conversion: interface \x7b\x7d is nil, not *goiam.User" }
  | Value.str _ =>
    { ctx := c, trace := trace,
      result := Result.panicked "interface conversion: interface \x7b\x7d is string, not *goiam.User" }

/-- Whether the route of `app.Get("/", ...)` matches (Fiber registers a GET
route for HEAD as well). -/
def matchesRoot (req : Request) : Bool :=
  (req.method == "GET" || req.method == "HEAD") && req.path == "/"

/-- The call `c.Next()` in the middleware: the only later handler is the one
of `GET /`. -/
def next (c : Ctx) (trace : List Event) : Run :=
  if matchesRoot c.req then rootHandler c trace
  else { ctx := c, trace := trace, result := Result.notFound }

/-- The middleware registered by `app.Use`. -/
def authMiddleware (service : Service) (c : Ctx) : Run :=
  let jwtToken := c.Get
  if jwtToken = "" then
    { ctx := (c.Status StatusUnauthorized).SendString "Unauthorized", trace := [],
      result := Result.ok }
  else if !strings.HasPrefix jwtToken "Bearer " then
    { ctx := (c.Status StatusUnauthorized).SendString "Unauthorized", trace := [],
      result := Result.ok }
  else
    let token := strings.TrimPrefix jwtToken "Bearer "
    let r := service.Me token
    match r.err with
    | some _ =>
      { ctx := (c.Status StatusUnauthorized).SendString "Unauthorized",
        trace := [Event.me token], result := Result.ok }
    | none => next (c.setLocal "user" (Value.userPtr r.user)) [Event.me token]

/-- Serving one request: the middleware runs first, on a fresh context. -/
def serve (service : Service) (req : Request) : Run :=
  authMiddleware service (newCtx req)

/-- The response sent when the chain returned nil: status and body. -/
def Run.response (r : Run) : Option (Nat × String) :=
  match r.result with
  | Result.ok => some (r.ctx.status, r.ctx.body)
  | _ => none

/-- The tokens `Me` was called with, in order. -/
def Run.meCalls (r : Run) : List String :=
  r.trace.filterMap (fun e => match e with
    | Event.me t => some t
    | Event.handler => none)

/-- How many times the `GET /` handler ran. -/
def Run.handlerRuns (r : Run) : Nat :=
  r.trace.count Event.handler

/-- The run of a rejected request: 401 with the fixed body, nothing called. -/
def rejected (req : Request) : Run :=
  { ctx := { req := req, status := 401, body := "Unauthorized", locals := [] },
    trace := [], result := Result.ok }

end Server

/-! ## The probe client (`golang/client/httpclient.go`) -/

namespace Client

/-- The part of `*http.Request` the client sets. -/
structure Request where
  Method : String
  URL : String
  Header : List (String × String)
  deriving DecidableEq, Repr

/-- The part of `*http.Response` the client reads; `Body` is what
`io.ReadAll(resp.Body)` yields: the bytes, or a read error. -/
structure Response where
  StatusCode : Int
  Status : String
  Body : Except String String

/-- What the client runs against: the process environment (`none` for an unset
variable), the error `http.NewRequest` reports for a URL (`none` when it
accepts it), and the outcome of `client.Do` for a request. -/
structure World where
  env : String → Option String
  urlError : String → Option String
  Do : Request → Except String Response

/-- Observable effects of the client, in order. -/
inductive Event where
  | print (s : String)
  | newRequest (method url : String)
  | doRequest (req : Request)
  | readAll
  | closeBody
  deriving DecidableEq, Repr

/-- How `main` ended. -/
inductive Result where
  | returned
  | panicked (msg : String)
  deriving DecidableEq, Repr

/-- The trace of effects and the result of one execution of `main`. -/
structure Run where
  trace : List Event
  result : Result
  deriving DecidableEq, Repr

def StatusOK : Int := 200

/-- Go `os.Getenv`: the value of the variable, `""` when it is unset. -/
def Getenv (w : World) (key : String) : String :=
  (w.env key).getD ""

/-- Go `fmt.Println(s)`: writes `s` and a newline. -/
def Println (s : String) : Event :=
  Event.print (s ++ "\n")

/-- Go `http.NewRequest(method, url, nil)`: a request without headers, or an
error when the URL is rejected. -/
def NewRequest (w : World) (method url : String) : Except String Request :=
  match w.urlError url with
  | some err => Except.error err
  | none => Except.ok { Method := method, URL := url, Header := [] }

/-- Go `req.Header.Set(key, value)`: replaces the values stored under the key. -/
def Request.setHeader (r : Request) (key value : String) : Request :=
  { r with Header := r.Header.filter (fun kv => kv.1 != key) ++ [(key, value)] }

/-- The lines printed when `JWT_TOKEN` is not set. -/
def setupLines : List String :=
  ["❌ JWT_TOKEN environment variable is not set",
   "\nTo set up the JWT token:",
   "1. Login to Go IAM web interface",
   "2. Open browser Developer Tools",
   "3. Go to Application/Storage tab",
   "4. Find \x27access_token\x27 in Local Storage",
   "5. Copy the token value",
   "6. Set the environment variable: export JWT_TOKEN=your_actual_token",
   "7. Or create a .env file with: JWT_TOKEN=your_actual_token"]

/-- The lines printed after the failure line when the status is 401. -/
def troubleshootingLines : List String :=
  ["\nTroubleshooting tips:",
   "• Check that your JWT token is valid and not expired",
   "• Verify the Go IAM server is running on http://localhost:3000",
   "• Ensure the example server is running on http://localhost:3001"]

/-- The text of `fmt.Printf("🚀 Testing Go IAM server at %s...\n", serverURL)`. -/
def testingLine (serverURL : String) : String :=
  "🚀 Testing Go IAM server at " ++ serverURL ++ "...\n"

/-- The text of
`fmt.Printf("❌ Request failed with status: %d %s\n", resp.StatusCode, resp.Status)`. -/
def failureLine (code : Int) (status : String) : String :=
  "❌ Request failed with status: " ++ toString code ++ " " ++ status ++ "\n"

/-- The text of `fmt.Println("✅ Request successful!")`. -/
def successLine : String :=
  "✅ Request successful!" ++ "\n"

/-- The text of `fmt.Printf("Response: %s\n", string(bytes))`. -/
def responseLine (body : String) : String :=
  "Response: " ++ body ++ "\n"

/-- The value of `serverURL` after the default is applied. -/
def targetURL (w : World) : String :=
  let serverURL := Getenv w "SERVER_URL"
  if serverURL = "" then "http://localhost:3001" else serverURL

/-- The function `main` of the probe client. -/
def main (w : World) : Run :=
  let jwtToken := Getenv w "JWT_TOKEN"
  if jwtToken = "" then
    { trace := setupLines.map Println, result := Result.returned }
  else
    let serverURL := targetURL w
    let t := [Event.print (testingLine serverURL), Event.newRequest "GET" serverURL]
    match NewRequest w "GET" serverURL with
    | Except.error err =>
      { trace := t, result := Result.panicked ("Failed to create request: " ++ err) }
    | Except.ok req =>
      let req := req.setHeader "Authorization" ("Bearer " ++ jwtToken)
      let req := req.setHeader "Content-Type" "application/json"
      let t := t ++ [Event.doRequest req]
      match w.Do req with
      | Except.error err =>
        { trace := t, result := Result.panicked ("Failed to make request: " ++ err) }
      | Except.ok resp =>
        if resp.StatusCode ≠ StatusOK then
          let t := t ++ [Event.print (failureLine resp.StatusCode resp.Status)]
          let t := if resp.StatusCode = 401 then t ++ troubleshootingLines.map Println else t
          { trace := t ++ [Event.closeBody], result := Result.returned }
        else
          let t := t ++ [Println "✅ Request successful!", Event.readAll]
          match resp.Body with
          | Except.error err =>
            { trace := t ++ [Event.closeBody],
              result := Result.panicked ("Failed to read response: " ++ err) }
          | Except.ok bytes =>
            { trace := t ++ [Event.print (responseLine bytes), Event.closeBody],
              result := Result.returned }

/-- The texts written to standard output, one per print call, in order. -/
def Run.stdout (r : Run) : List String :=
  r.trace.filterMap (fun e => match e with
    | Event.print s => some s
    | _ => none)

/-- The requests handed to `client.Do`, in order. -/
def Run.sent (r : Run) : List Request :=
  r.trace.filterMap (fun e => match e with
    | Event.doRequest q => some q
    | _ => none)

/-- How many times `http.NewRequest` was called. -/
def Run.constructed (r : Run) : Nat :=
  (r.trace.filter (fun e => match e with
    | Event.newRequest _ _ => true
    | _ => false)).length

/-- How many times the response body was read. -/
def Run.bodyReads (r : Run) : Nat :=
  r.trace.count Event.readAll

/-- The request `main` hands to `client.Do`: built by `http.NewRequest("GET", url, nil)`
and the two `Header.Set` calls. -/
def probeRequest (url tok : String) : Request :=
  ((Request.mk "GET" url []).setHeader "Authorization" ("Bearer " ++ tok)).setHeader
    "Content-Type" "application/json"

/-- An environment given as a list of `NAME=value` bindings. -/
def envOf (bindings : List (String × String)) (key : String) : Option String :=
  (bindings.find? (fun kv => kv.1 == key)).map (fun kv => kv.2)

end Client

/-! ## Facts about `strings` -/

namespace strings

theorem HasPrefix_append (pre t : String) : HasPrefix (pre ++ t) pre = true := by
  simp [HasPrefix, String.data_append]

theorem TrimPrefix_append (pre t : String) : TrimPrefix (pre ++ t) pre = t := by
  simp [TrimPrefix, HasPrefix_append, String.data_append]

theorem exists_append_of_HasPrefix {s pre : String} (h : HasPrefix s pre = true) :
    ∃ t, s = pre ++ t := by
  simp only [HasPrefix, Bool.and_eq_true, decide_eq_true_eq, beq_iff_eq] at h
  refine ⟨String.mk (s.data.drop pre.data.length), ?_⟩
  apply String.ext
  have hs := (List.take_append_drop pre.data.length s.data).symm
  rw [h.2] at hs
  rw [String.data_append]
  exact hs

theorem HasPrefix_iff (s pre : String) : HasPrefix s pre = true ↔ ∃ t, s = pre ++ t := by
  constructor
  · exact exists_append_of_HasPrefix
  · rintro ⟨t, rfl⟩
    exact HasPrefix_append pre t

theorem HasPrefix_eq_false_of_forall_ne {s pre : String} (h : ∀ t, s ≠ pre ++ t) :
    HasPrefix s pre = false := by
  cases hp : HasPrefix s pre with
  | false => rfl
  | true =>
    obtain ⟨t, ht⟩ := exists_append_of_HasPrefix hp
    exact absurd ht (h t)

theorem forall_ne_of_HasPrefix_eq_false {s pre : String} (h : HasPrefix s pre = false) :
    ∀ t, s ≠ pre ++ t := by
  intro t ht
  rw [ht, HasPrefix_append] at h
  exact Bool.noConfusion h

theorem bearer_append_ne_empty (t : String) : "Bearer " ++ t ≠ "" := by
  intro h
  have := congrArg (fun s => s.data.head?) h
  simp at this

end strings

/-! ## The guarded server: how a request is served -/

namespace Server

theorem serve_of_not_bearer (service : Service) (req : Request)
    (h : ∀ t, req.authorization.getD "" ≠ "Bearer " ++ t) :
    serve service req = rejected req := by
  have hp := strings.HasPrefix_eq_false_of_forall_ne h
  simp [serve, authMiddleware, Ctx.Get, newCtx, hp, rejected, Ctx.Status, Ctx.SendString,
    StatusUnauthorized]

theorem serve_of_bearer (service : Service) (req : Request) (t : String)
    (h : req.authorization = some ("Bearer " ++ t)) :
    serve service req =
      match (service.Me t).err with
      | some _ =>
        { ctx := { req := req, status := 401, body := "Unauthorized", locals := [] },
          trace := [Event.me t], result := Result.ok }
      | none =>
        next { req := req, status := 200, body := "",
               locals := [("user", Value.userPtr (service.Me t).user)] } [Event.me t] := by
  simp [serve, authMiddleware, Ctx.Get, newCtx, h, strings.HasPrefix_append,
    strings.TrimPrefix_append, strings.bearer_append_ne_empty, Ctx.Status, Ctx.SendString,
    StatusUnauthorized, StatusOK, Ctx.setLocal]

theorem bearer_or_not (v : String) :
    (∃ t, v = "Bearer " ++ t) ∨ ∀ t, v ≠ "Bearer " ++ t := by
  by_cases h : ∃ t, v = "Bearer " ++ t
  · exact Or.inl h
  · exact Or.inr (fun t ht => h ⟨t, ht⟩)

theorem next_root (c : Ctx) (trace : List Event) (hm : c.req.method = "GET")
    (hp : c.req.path = "/") : next c trace = rootHandler c trace := by
  simp [next, matchesRoot, hm, hp]

theorem handlerRuns_next_le (c : Ctx) (t : String) :
    (next c [Event.me t]).handlerRuns = if matchesRoot c.req then 1 else 0 := by
  unfold next
  split
  · unfold rootHandler
    simp only []
    split <;> simp [Run.handlerRuns]
  · simp [Run.handlerRuns]

/-- C1: a request whose Authorization header is missing (or empty) is answered
with status 401 and body "Unauthorized"; the SDK's Me is not called and the
GET / handler does not run. -/
theorem missing_header_unauthorized (service : Service) (req : Request)
    (h : req.authorization = none ∨ req.authorization = some "") :
    (serve service req).response = some (401, "Unauthorized") ∧
    (serve service req).meCalls = [] ∧
    (serve service req).handlerRuns = 0 := by
  have hget : req.authorization.getD "" = "" := by
    rcases h with h | h <;> simp [h]
  have hnb : ∀ t, req.authorization.getD "" ≠ "Bearer " ++ t := by
    intro t ht
    rw [hget] at ht
    exact strings.bearer_append_ne_empty t ht.symm
  rw [serve_of_not_bearer service req hnb]
  simp [rejected, Run.response, Run.meCalls, Run.handlerRuns]

theorem missing_header_unauthorized_witness :
    (serve ⟨fun _ => ⟨some ⟨"Alice"⟩, none⟩⟩ ⟨"GET", "/", none⟩).response
        = some (401, "Unauthorized") ∧
    (serve ⟨fun _ => ⟨some ⟨"Alice"⟩, none⟩⟩ ⟨"GET", "/", none⟩).meCalls = [] ∧
    (serve ⟨fun _ => ⟨some ⟨"Alice"⟩, none⟩⟩ ⟨"GET", "/", none⟩).handlerRuns = 0 :=
  missing_header_unauthorized ⟨fun _ => ⟨some ⟨"Alice"⟩, none⟩⟩ ⟨"GET", "/", none⟩ (Or.inl rfl)

/-- C2: a request whose Authorization header value does not start with the
exact string "Bearer " is answered with status 401 (and the fixed body);
neither the SDK's Me nor the downstream handler is invoked. -/
theorem non_bearer_header_unauthorized (service : Service) (req : Request) (v : String)
    (hv : req.authorization = some v) (h : ∀ t, v ≠ "Bearer " ++ t) :
    (serve service req).response = some (401, "Unauthorized") ∧
    (serve service req).meCalls = [] ∧
    (serve service req).handlerRuns = 0 := by
  have hnb : ∀ t, req.authorization.getD "" ≠ "Bearer " ++ t := by
    intro t
    simpa [hv] using h t
  rw [serve_of_not_bearer service req hnb]
  simp [rejected, Run.response, Run.meCalls, Run.handlerRuns]

theorem non_bearer_header_unauthorized_witness :
    (strings.HasPrefix "bearer abc" "Bearer " = false ∧
      (serve ⟨fun _ => ⟨some ⟨"Alice"⟩, none⟩⟩ ⟨"GET", "/", some "bearer abc"⟩).response
          = some (401, "Unauthorized") ∧
      (serve ⟨fun _ => ⟨some ⟨"Alice"⟩, none⟩⟩ ⟨"GET", "/", some "bearer abc"⟩).meCalls = [] ∧
      (serve ⟨fun _ => ⟨some ⟨"Alice"⟩, none⟩⟩ ⟨"GET", "/", some "bearer abc"⟩).handlerRuns = 0) ∧
    (strings.HasPrefix "Basic abc" "Bearer " = false ∧
      (serve ⟨fun _ => ⟨some ⟨"Alice"⟩, none⟩⟩ ⟨"GET", "/", some "Basic abc"⟩).response
          = some (401, "Unauthorized") ∧
      (serve ⟨fun _ => ⟨some ⟨"Alice"⟩, none⟩⟩ ⟨"GET", "/", some "Basic abc"⟩).meCalls = [] ∧
      (serve ⟨fun _ => ⟨some ⟨"Alice"⟩, none⟩⟩ ⟨"GET", "/", some "Basic abc"⟩).handlerRuns = 0) ∧
    (strings.HasPrefix "Bearer" "Bearer " = false ∧
      (serve ⟨fun _ => ⟨some ⟨"Alice"⟩, none⟩⟩ ⟨"GET", "/", some "Bearer"⟩).response
          = some (401, "Unauthorized") ∧
      (serve ⟨fun _ => ⟨some ⟨"Alice"⟩, none⟩⟩ ⟨"GET", "/", some "Bearer"⟩).meCalls = [] ∧
      (serve ⟨fun _ => ⟨some ⟨"Alice"⟩, none⟩⟩ ⟨"GET", "/", some "Bearer"⟩).handlerRuns = 0) ∧
    (strings.HasPrefix " Bearer abc" "Bearer " = false ∧
      (serve ⟨fun _ => ⟨some ⟨"Alice"⟩, none⟩⟩ ⟨"GET", "/", some " Bearer abc"⟩).response
          = some (401, "Unauthorized") ∧
      (serve ⟨fun _ => ⟨some ⟨"Alice"⟩, none⟩⟩ ⟨"GET", "/", some " Bearer abc"⟩).meCalls = [] ∧
      (serve ⟨fun _ => ⟨some ⟨"Alice"⟩, none⟩⟩ ⟨"GET", "/", some " Bearer abc"⟩).handlerRuns = 0) :=
  ⟨⟨by decide, non_bearer_header_unauthorized ⟨fun _ => ⟨some ⟨"Alice"⟩, none⟩⟩
      ⟨"GET", "/", some "bearer abc"⟩ "bearer abc" rfl
      (strings.forall_ne_of_HasPrefix_eq_false (by decide))⟩,
   ⟨by decide, non_bearer_header_unauthorized ⟨fun _ => ⟨some ⟨"Alice"⟩, none⟩⟩
      ⟨"GET", "/", some "Basic abc"⟩ "Basic abc" rfl
      (strings.forall_ne_of_HasPrefix_eq_false (by decide))⟩,
   ⟨by decide, non_bearer_header_unauthorized ⟨fun _ => ⟨some ⟨"Alice"⟩, none⟩⟩
      ⟨"GET", "/", some "Bearer"⟩ "Bearer" rfl
      (strings.forall_ne_of_HasPrefix_eq_false (by decide))⟩,
   ⟨by decide, non_bearer_header_unauthorized ⟨fun _ => ⟨some ⟨"Alice"⟩, none⟩⟩
      ⟨"GET", "/", some " Bearer abc"⟩ " Bearer abc" rfl
      (strings.forall_ne_of_HasPrefix_eq_false (by decide))⟩⟩

/-- C3: when the header is "Bearer " ++ t and the SDK's Me(t) returns an error,
the response is 401 "Unauthorized" and the handler does not run; the response
is the same whatever the error (and whatever the service and request), and it
is the response given for a missing or malformed header. -/
theorem sdk_error_unauthorized (service : Service) (req : Request) (t e : String)
    (hreq : req.authorization = some ("Bearer " ++ t))
    (herr : (service.Me t).err = some e) :
    (serve service req).response = some (401, "Unauthorized") ∧
    (serve service req).handlerRuns = 0 ∧
    (∀ (service2 : Service) (req2 : Request) (t2 e2 : String),
      req2.authorization = some ("Bearer " ++ t2) → (service2.Me t2).err = some e2 →
      (serve service2 req2).response = (serve service req).response) ∧
    (∀ (service2 : Service) (req2 : Request),
      (∀ t2, req2.authorization.getD "" ≠ "Bearer " ++ t2) →
      (serve service2 req2).response = (serve service req).response) := by
  have h1 : (serve service req).response = some (401, "Unauthorized") := by
    rw [serve_of_bearer service req t hreq, herr]
    simp [Run.response]
  refine ⟨h1, ?_, ?_, ?_⟩
  · rw [serve_of_bearer service req t hreq, herr]
    simp [Run.handlerRuns]
  · intro service2 req2 t2 e2 hreq2 herr2
    rw [h1, serve_of_bearer service2 req2 t2 hreq2, herr2]
    simp [Run.response]
  · intro service2 req2 hnb
    rw [h1, serve_of_not_bearer service2 req2 hnb]
    simp [rejected, Run.response]

theorem sdk_error_unauthorized_witness :
    (serve ⟨fun _ => ⟨none, some "token expired"⟩⟩ ⟨"GET", "/", some "Bearer abc"⟩).response
        = some (401, "Unauthorized") ∧
    (serve ⟨fun _ => ⟨none, some "token expired"⟩⟩ ⟨"GET", "/", some "Bearer abc"⟩).handlerRuns
        = 0 :=
  have h := sdk_error_unauthorized ⟨fun _ => ⟨none, some "token expired"⟩⟩
    ⟨"GET", "/", some "Bearer abc"⟩ "abc" "token expired" rfl rfl
  ⟨h.1, h.2.1⟩

/-- C4: for GET / with header "Bearer " ++ t, when the SDK's Me(t) returns a
user u and no error, u is stored under "user", the handler runs, and the
response is 200 with body "Hello, " ++ u.Name ++ "!". -/
theorem resolved_user_greeting (service : Service) (req : Request) (t : String) (u : User)
    (hm : req.method = "GET") (hp : req.path = "/")
    (hreq : req.authorization = some ("Bearer " ++ t))
    (hme : service.Me t = ⟨some u, none⟩) :
    (serve service req).ctx.getLocal "user" = Value.userPtr (some u) ∧
    (serve service req).handlerRuns = 1 ∧
    (serve service req).response = some (200, "Hello, " ++ u.Name ++ "!") := by
  rw [serve_of_bearer service req t hreq, hme]
  simp only []
  rw [next_root _ _ hm hp]
  simp [rootHandler, Ctx.getLocal, Ctx.SendString, Run.handlerRuns, Run.response]

theorem resolved_user_greeting_witness :
    (serve ⟨fun _ => ⟨some ⟨"Alice"⟩, none⟩⟩ ⟨"GET", "/", some "Bearer abc"⟩).ctx.getLocal "user"
        = Value.userPtr (some ⟨"Alice"⟩) ∧
    (serve ⟨fun _ => ⟨some ⟨"Alice"⟩, none⟩⟩ ⟨"GET", "/", some "Bearer abc"⟩).handlerRuns = 1 ∧
    (serve ⟨fun _ => ⟨some ⟨"Alice"⟩, none⟩⟩ ⟨"GET", "/", some "Bearer abc"⟩).response
        = some (200, "Hello, Alice!") :=
  resolved_user_greeting ⟨fun _ => ⟨some ⟨"Alice"⟩, none⟩⟩ ⟨"GET", "/", some "Bearer abc"⟩
    "abc" ⟨"Alice"⟩ rfl rfl rfl rfl

/-- C5: a request whose Authorization header is "Bearer " ++ t makes the
middleware call the SDK's Me exactly once, with the token t unchanged. -/
theorem me_called_once_with_token (service : Service) (req : Request) (t : String)
    (hreq : req.authorization = some ("Bearer " ++ t)) :
    (serve service req).meCalls = [t] := by
  rw [serve_of_bearer service req t hreq]
  cases (service.Me t).err with
  | some e => simp [Run.meCalls]
  | none =>
    simp only [next]
    split
    · unfold rootHandler
      simp only []
      split <;> simp [Run.meCalls]
    · simp [Run.meCalls]

theorem me_called_once_with_token_witness :
    (serve ⟨fun _ => ⟨none, some "bad"⟩⟩ ⟨"GET", "/", some "Bearer Bearer x"⟩).meCalls
        = ["Bearer x"] ∧
    (serve ⟨fun _ => ⟨none, some "bad"⟩⟩ ⟨"GET", "/", some "Bearer "⟩).meCalls = [""] ∧
    (serve ⟨fun _ => ⟨none, some "bad"⟩⟩ ⟨"GET", "/", some "Bearer   x "⟩).meCalls
        = ["  x "] :=
  ⟨me_called_once_with_token _ ⟨"GET", "/", some "Bearer Bearer x"⟩ "Bearer x" rfl,
   me_called_once_with_token _ ⟨"GET", "/", some "Bearer "⟩ "" rfl,
   me_called_once_with_token _ ⟨"GET", "/", some "Bearer   x "⟩ "  x " rfl⟩

theorem authorization_of_getD_bearer (req : Request) (t : String)
    (h : req.authorization.getD "" = "Bearer " ++ t) :
    req.authorization = some ("Bearer " ++ t) := by
  cases ha : req.authorization with
  | none =>
    rw [ha] at h
    exact absurd h.symm (strings.bearer_append_ne_empty t)
  | some v =>
    rw [ha] at h
    simpa using h

theorem rootHandler_stored (req : Request) (p : Option User) (trace : List Event) :
    (rootHandler { req := req, status := 200, body := "", locals := [("user", Value.userPtr p)] }
        trace).ctx.getLocal "user" = Value.userPtr p ∧
    (∀ u, p = some u →
      (rootHandler { req := req, status := 200, body := "",
                     locals := [("user", Value.userPtr p)] } trace).response
        = some (200, "Hello, " ++ u.Name ++ "!")) ∧
    (∀ msg,
      (rootHandler { req := req, status := 200, body := "",
                     locals := [("user", Value.userPtr p)] } trace).result
        = Result.panicked msg → p = none) := by
  cases p with
  | none => simp [rootHandler, Ctx.getLocal]
  | some u => simp [rootHandler, Ctx.getLocal, Ctx.SendString, Run.response]

/-- C6, refuted as stated: with a nil user pointer returned alongside a nil
error, the GET / handler runs and panics on reading the Name. -/
theorem nil_user_handler_panics :
    ((Service.mk (fun _ => ⟨none, none⟩)).Me "abc").err = none ∧
    (serve ⟨fun _ => ⟨none, none⟩⟩ ⟨"GET", "/", some "Bearer abc"⟩).handlerRuns = 1 ∧
    (serve ⟨fun _ => ⟨none, none⟩⟩ ⟨"GET", "/", some "Bearer abc"⟩).result =
      Result.panicked "runtime error: invalid memory address or nil pointer dereference" ∧
    (serve ⟨fun _ => ⟨none, none⟩⟩ ⟨"GET", "/", some "Bearer abc"⟩).response = none := by
  decide

/-- C6, amended: whenever the GET / handler runs, the header was
"Bearer " ++ t, the SDK's Me(t) returned without error, and the value stored
under "user" is the user pointer Me returned, so the type assertion cannot
fail; when that pointer is not nil the handler reads the Name and answers 200,
and the handler panics only if the pointer is nil. -/
theorem handler_runs_only_after_me (service : Service) (req : Request)
    (h : 0 < (serve service req).handlerRuns) :
    ∃ t, req.authorization = some ("Bearer " ++ t) ∧
      (service.Me t).err = none ∧
      (serve service req).ctx.getLocal "user" = Value.userPtr (service.Me t).user ∧
      (∀ u, (service.Me t).user = some u →
        (serve service req).response = some (200, "Hello, " ++ u.Name ++ "!")) ∧
      (∀ msg, (serve service req).result = Result.panicked msg →
        (service.Me t).user = none) := by
  rcases bearer_or_not (req.authorization.getD "") with ⟨t, ht⟩ | hnb
  · have hreq := authorization_of_getD_bearer req t ht
    refine ⟨t, hreq, ?_⟩
    rw [serve_of_bearer service req t hreq] at h ⊢
    cases herr : (service.Me t).err with
    | some e =>
      rw [herr] at h
      simp [Run.handlerRuns] at h
    | none =>
      rw [herr] at h
      simp only [] at h ⊢
      rw [handlerRuns_next_le] at h
      have hroot : matchesRoot req = true := by
        by_contra hc
        simp [hc] at h
      simp only [next, hroot, if_true]
      exact ⟨trivial, rootHandler_stored req (service.Me t).user [Event.me t]⟩
  · rw [serve_of_not_bearer service req hnb] at h
    simp [rejected, Run.handlerRuns] at h

theorem handler_runs_only_after_me_witness :
    0 < (serve ⟨fun _ => ⟨some ⟨"Alice"⟩, none⟩⟩
          ⟨"GET", "/", some "Bearer abc"⟩).handlerRuns ∧
    ∃ t, (Request.mk "GET" "/" (some "Bearer abc")).authorization = some ("Bearer " ++ t) ∧
      ((Service.mk (fun _ => ⟨some ⟨"Alice"⟩, none⟩)).Me t).err = none ∧
      (serve ⟨fun _ => ⟨some ⟨"Alice"⟩, none⟩⟩
          ⟨"GET", "/", some "Bearer abc"⟩).ctx.getLocal "user"
        = Value.userPtr ((Service.mk (fun _ => ⟨some ⟨"Alice"⟩, none⟩)).Me t).user ∧
      (∀ u, ((Service.mk (fun _ => ⟨some ⟨"Alice"⟩, none⟩)).Me t).user = some u →
        (serve ⟨fun _ => ⟨some ⟨"Alice"⟩, none⟩⟩ ⟨"GET", "/", some "Bearer abc"⟩).response
          = some (200, "Hello, " ++ u.Name ++ "!")) ∧
      (∀ msg,
        (serve ⟨fun _ => ⟨some ⟨"Alice"⟩, none⟩⟩ ⟨"GET", "/", some "Bearer abc"⟩).result
          = Result.panicked msg →
        ((Service.mk (fun _ => ⟨some ⟨"Alice"⟩, none⟩)).Me t).user = none) :=
  ⟨by decide,
   handler_runs_only_after_me ⟨fun _ => ⟨some ⟨"Alice"⟩, none⟩⟩
     ⟨"GET", "/", some "Bearer abc"⟩ (by decide)⟩

end Server

/-! ## The probe client: how `main` runs -/

namespace Client

theorem probeRequest_eq (url tok : String) :
    probeRequest url tok =
      { Method := "GET", URL := url,
        Header := [("Authorization", "Bearer " ++ tok), ("Content-Type", "application/json")] } := by
  simp [probeRequest, Request.setHeader]

theorem main_of_no_token (w : World) (h : Getenv w "JWT_TOKEN" = "") :
    main w = { trace := setupLines.map Println, result := Result.returned } := by
  simp [main, h]

theorem main_of_url_error (w : World) (err : String) (htok : Getenv w "JWT_TOKEN" ≠ "")
    (hurl : w.urlError (targetURL w) = some err) :
    main w = { trace := [Event.print (testingLine (targetURL w)),
                         Event.newRequest "GET" (targetURL w)],
               result := Result.panicked ("Failed to create request: " ++ err) } := by
  simp [main, htok, NewRequest, hurl]

theorem main_of_do_error (w : World) (err : String) (htok : Getenv w "JWT_TOKEN" ≠ "")
    (hurl : w.urlError (targetURL w) = none)
    (hdo : w.Do (probeRequest (targetURL w) (Getenv w "JWT_TOKEN")) = Except.error err) :
    main w = { trace := [Event.print (testingLine (targetURL w)),
                         Event.newRequest "GET" (targetURL w),
                         Event.doRequest (probeRequest (targetURL w) (Getenv w "JWT_TOKEN"))],
               result := Result.panicked ("Failed to make request: " ++ err) } := by
  unfold probeRequest at hdo
  simp [main, htok, NewRequest, hurl, hdo, probeRequest]

theorem main_of_response (w : World) (resp : Response) (htok : Getenv w "JWT_TOKEN" ≠ "")
    (hurl : w.urlError (targetURL w) = none)
    (hdo : w.Do (probeRequest (targetURL w) (Getenv w "JWT_TOKEN")) = Except.ok resp) :
    main w =
      if resp.StatusCode ≠ StatusOK then
        { trace := ([Event.print (testingLine (targetURL w)),
                     Event.newRequest "GET" (targetURL w),
                     Event.doRequest (probeRequest (targetURL w) (Getenv w "JWT_TOKEN")),
                     Event.print (failureLine resp.StatusCode resp.Status)] ++
                    (if resp.StatusCode = 401 then troubleshootingLines.map Println else [])) ++
                   [Event.closeBody],
          result := Result.returned }
      else
        match resp.Body with
        | Except.error err =>
          { trace := [Event.print (testingLine (targetURL w)),
                      Event.newRequest "GET" (targetURL w),
                      Event.doRequest (probeRequest (targetURL w) (Getenv w "JWT_TOKEN")),
                      Println "✅ Request successful!", Event.readAll, Event.closeBody],
            result := Result.panicked ("Failed to read response: " ++ err) }
        | Except.ok bytes =>
          { trace := [Event.print (testingLine (targetURL w)),
                      Event.newRequest "GET" (targetURL w),
                      Event.doRequest (probeRequest (targetURL w) (Getenv w "JWT_TOKEN")),
                      Println "✅ Request successful!", Event.readAll,
                      Event.print (responseLine bytes), Event.closeBody],
            result := Result.returned } := by
  unfold probeRequest at hdo
  simp only [main, htok, NewRequest, hurl, hdo, if_false, probeRequest]
  split
  · split <;> simp
  · split <;> simp

/-- Whatever `client.Do` answers, a request reaches it only when the token is
set and the URL is accepted, and it is the request built from them. -/
theorem eq_probeRequest_of_mem_sent (w : World) (q : Request) (h : q ∈ (main w).sent) :
    Getenv w "JWT_TOKEN" ≠ "" ∧ w.urlError (targetURL w) = none ∧
    q = probeRequest (targetURL w) (Getenv w "JWT_TOKEN") := by
  by_cases htok : Getenv w "JWT_TOKEN" = ""
  · rw [main_of_no_token w htok] at h
    simp [Run.sent, setupLines, Println] at h
  · cases hurl : w.urlError (targetURL w) with
    | some err =>
      rw [main_of_url_error w err htok hurl] at h
      simp [Run.sent] at h
    | none =>
      refine ⟨htok, rfl, ?_⟩
      cases hdo : w.Do (probeRequest (targetURL w) (Getenv w "JWT_TOKEN")) with
      | error err =>
        rw [main_of_do_error w err htok hurl hdo] at h
        simpa [Run.sent] using h
      | ok resp =>
        rw [main_of_response w resp htok hurl hdo] at h
        split at h
        · split at h <;> simpa [Run.sent, troubleshootingLines, Println] using h
        · split at h <;> simpa [Run.sent, Println] using h

theorem getenv_empty_of_unset (w : World) (key : String)
    (h : w.env key = none ∨ w.env key = some "") : Getenv w key = "" := by
  rcases h with h | h <;> simp [Getenv, h]

theorem testingLine_ne_of_head (url s : String) (h : s.data.head? ≠ some '🚀') :
    testingLine url ≠ s := by
  intro he
  apply h
  rw [← he]
  simp [testingLine, String.data_append]

theorem failureLine_ne_of_head (code : Int) (status s : String) (h : s.data.head? ≠ some '❌') :
    failureLine code status ≠ s := by
  intro he
  apply h
  rw [← he]
  simp [failureLine, String.data_append]

theorem responseLine_ne_of_head (b s : String) (h : s.data.head? ≠ some 'R') :
    responseLine b ≠ s := by
  intro he
  apply h
  rw [← he]
  simp [responseLine, String.data_append]

/-- C7: when JWT_TOKEN is unset or empty, whatever SERVER_URL is, the client
prints the "not set" line and the seven numbered setup steps and returns
normally; no HTTP request is constructed or sent. -/
theorem missing_token_prints_setup (w : World)
    (h : w.env "JWT_TOKEN" = none ∨ w.env "JWT_TOKEN" = some "") :
    (main w).stdout =
      ["❌ JWT_TOKEN environment variable is not set\n",
       "\nTo set up the JWT token:\n",
       "1. Login to Go IAM web interface\n",
       "2. Open browser Developer Tools\n",
       "3. Go to Application/Storage tab\n",
       "4. Find \x27access_token\x27 in Local Storage\n",
       "5. Copy the token value\n",
       "6. Set the environment variable: export JWT_TOKEN=your_actual_token\n",
       "7. Or create a .env file with: JWT_TOKEN=your_actual_token\n"] ∧
    (main w).result = Result.returned ∧
    (main w).constructed = 0 ∧
    (main w).sent = [] := by
  rw [main_of_no_token w (getenv_empty_of_unset w "JWT_TOKEN" h)]
  decide

theorem missing_token_prints_setup_witness :
    (main ⟨envOf [("SERVER_URL", "http://example.org")], fun _ => none,
        fun _ => Except.error "unreachable"⟩).stdout =
      ["❌ JWT_TOKEN environment variable is not set\n",
       "\nTo set up the JWT token:\n",
       "1. Login to Go IAM web interface\n",
       "2. Open browser Developer Tools\n",
       "3. Go to Application/Storage tab\n",
       "4. Find \x27access_token\x27 in Local Storage\n",
       "5. Copy the token value\n",
       "6. Set the environment variable: export JWT_TOKEN=your_actual_token\n",
       "7. Or create a .env file with: JWT_TOKEN=your_actual_token\n"] ∧
    (main ⟨envOf [("SERVER_URL", "http://example.org")], fun _ => none,
        fun _ => Except.error "unreachable"⟩).result = Result.returned ∧
    (main ⟨envOf [("SERVER_URL", "http://example.org")], fun _ => none,
        fun _ => Except.error "unreachable"⟩).constructed = 0 ∧
    (main ⟨envOf [("SERVER_URL", "http://example.org")], fun _ => none,
        fun _ => Except.error "unreachable"⟩).sent = [] :=
  missing_token_prints_setup ⟨envOf [("SERVER_URL", "http://example.org")], fun _ => none,
    fun _ => Except.error "unreachable"⟩ (Or.inl (by decide))

/-- C8, refuted as stated: with a non-empty JWT_TOKEN and SERVER_URL=":" (which
`http.NewRequest` rejects), the client panics before sending anything. -/
theorem rejected_url_sends_nothing :
    Getenv ⟨envOf [("JWT_TOKEN", "tok"), ("SERVER_URL", ":")],
        fun url => if url = ":" then some "parse \":\": missing protocol scheme" else none,
        fun _ => Except.ok ⟨200, "200 OK", Except.ok "Hello, Alice!"⟩⟩ "JWT_TOKEN" = "tok" ∧
    (main ⟨envOf [("JWT_TOKEN", "tok"), ("SERVER_URL", ":")],
        fun url => if url = ":" then some "parse \":\": missing protocol scheme" else none,
        fun _ => Except.ok ⟨200, "200 OK", Except.ok "Hello, Alice!"⟩⟩).sent = [] ∧
    (main ⟨envOf [("JWT_TOKEN", "tok"), ("SERVER_URL", ":")],
        fun url => if url = ":" then some "parse \":\": missing protocol scheme" else none,
        fun _ => Except.ok ⟨200, "200 OK", Except.ok "Hello, Alice!"⟩⟩).result =
      Result.panicked "Failed to create request: parse \":\": missing protocol scheme" := by
  decide

/-- C8, amended: for every non-empty JWT_TOKEN value tok, when
`http.NewRequest` accepts the target URL, the client hands exactly one request
to `client.Do`: method GET, target SERVER_URL when it is non-empty and
"http://localhost:3001" when it is unset or empty, with Authorization equal to
"Bearer " ++ tok and Content-Type equal to "application/json". -/
theorem sends_one_bearer_request (w : World) (tok : String)
    (htok : w.env "JWT_TOKEN" = some tok) (hne : tok ≠ "")
    (hurl : w.urlError (targetURL w) = none) :
    ∃ target,
      (main w).sent =
        [{ Method := "GET", URL := target,
           Header := [("Authorization", "Bearer " ++ tok),
                      ("Content-Type", "application/json")] }] ∧
      (w.env "SERVER_URL" = none ∨ w.env "SERVER_URL" = some "" →
        target = "http://localhost:3001") ∧
      (∀ url, w.env "SERVER_URL" = some url → url ≠ "" → target = url) := by
  have hget : Getenv w "JWT_TOKEN" = tok := by simp [Getenv, htok]
  have hget2 : Getenv w "JWT_TOKEN" ≠ "" := by rw [hget]; exact hne
  refine ⟨targetURL w, ?_, ?_, ?_⟩
  · rw [← probeRequest_eq, ← hget]
    cases hdo : w.Do (probeRequest (targetURL w) (Getenv w "JWT_TOKEN")) with
    | error err =>
      rw [main_of_do_error w err hget2 hurl hdo]
      simp [Run.sent]
    | ok resp =>
      rw [main_of_response w resp hget2 hurl hdo]
      split
      · split <;> simp [Run.sent, troubleshootingLines, Println]
      · split <;> simp [Run.sent, Println]
  · intro h
    simp [targetURL, getenv_empty_of_unset w "SERVER_URL" h]
  · intro url hu hune
    simp [targetURL, Getenv, hu, hune]

theorem sends_one_bearer_request_witness :
    ∃ target,
      (main ⟨envOf [("JWT_TOKEN", "tok")], fun _ => none,
          fun _ => Except.error "connection refused"⟩).sent =
        [{ Method := "GET", URL := target,
           Header := [("Authorization", "Bearer " ++ "tok"),
                      ("Content-Type", "application/json")] }] ∧
      (envOf [("JWT_TOKEN", "tok")] "SERVER_URL" = none ∨
        envOf [("JWT_TOKEN", "tok")] "SERVER_URL" = some "" →
        target = "http://localhost:3001") ∧
      (∀ url, envOf [("JWT_TOKEN", "tok")] "SERVER_URL" = some url → url ≠ "" →
        target = url) :=
  sends_one_bearer_request ⟨envOf [("JWT_TOKEN", "tok")], fun _ => none,
    fun _ => Except.error "connection refused"⟩ "tok" (by decide) (by decide) rfl

/-- C9: for a response with status code 200 whose body b is read in full, the
client prints the line "✅ Request successful!" and then the line
"Response: " ++ b with b unchanged, returns normally, and prints neither a
failure line nor any troubleshooting tip. -/
theorem ok_response_printed (w : World) (q : Request) (resp : Response) (b : String)
    (hq : q ∈ (main w).sent) (hdo : w.Do q = Except.ok resp)
    (hcode : resp.StatusCode = 200) (hbody : resp.Body = Except.ok b) :
    (main w).stdout =
      ["🚀 Testing Go IAM server at " ++ targetURL w ++ "...\n",
       "✅ Request successful!\n",
       "Response: " ++ b ++ "\n"] ∧
    (main w).result = Result.returned ∧
    (∀ code status, failureLine code status ∉ (main w).stdout) ∧
    (∀ tip ∈ troubleshootingLines, tip ++ "\n" ∉ (main w).stdout) := by
  obtain ⟨htok, hurl, rfl⟩ := eq_probeRequest_of_mem_sent w q hq
  have hrun := main_of_response w resp htok hurl hdo
  simp only [hcode, hbody, StatusOK, ne_eq, not_true_eq_false, if_false] at hrun
  have hout : (main w).stdout =
      [testingLine (targetURL w), "✅ Request successful!\n", responseLine b] := by
    rw [hrun]
    simp [Run.stdout, Println]
  refine ⟨hout, ?_, ?_, ?_⟩
  · rw [hrun]
  · intro code status hmem
    rw [hout] at hmem
    simp only [List.mem_cons, List.mem_singleton, List.not_mem_nil, or_false] at hmem
    rcases hmem with h | h | h
    · exact testingLine_ne_of_head _ _ (by simp [failureLine, String.data_append]) h.symm
    · exact failureLine_ne_of_head _ _ _ (by decide) h
    · exact responseLine_ne_of_head _ _ (by simp [failureLine, String.data_append]) h.symm
  · intro tip htip hmem
    rw [hout] at hmem
    simp only [troubleshootingLines, List.mem_cons, List.mem_singleton, List.not_mem_nil,
      or_false] at htip hmem
    rcases htip with rfl | rfl | rfl | rfl <;> rcases hmem with h | h | h
    all_goals first
      | exact testingLine_ne_of_head _ _ (by decide) h.symm
      | exact responseLine_ne_of_head _ _ (by decide) h.symm
      | exact absurd h (by decide)

theorem ok_response_printed_witness :
    (main ⟨envOf [("JWT_TOKEN", "tok")], fun _ => none,
        fun _ => Except.ok ⟨200, "200 OK", Except.ok "\x7b\"ok\":true\x7d"⟩⟩).stdout =
      ["🚀 Testing Go IAM server at " ++
          targetURL ⟨envOf [("JWT_TOKEN", "tok")], fun _ => none,
            fun _ => Except.ok ⟨200, "200 OK", Except.ok "\x7b\"ok\":true\x7d"⟩⟩ ++ "...\n",
       "✅ Request successful!\n",
       "Response: " ++ "\x7b\"ok\":true\x7d" ++ "\n"] ∧
    (main ⟨envOf [("JWT_TOKEN", "tok")], fun _ => none,
        fun _ => Except.ok ⟨200, "200 OK", Except.ok "\x7b\"ok\":true\x7d"⟩⟩).result
      = Result.returned :=
  have h := ok_response_printed
    ⟨envOf [("JWT_TOKEN", "tok")], fun _ => none,
      fun _ => Except.ok ⟨200, "200 OK", Except.ok "\x7b\"ok\":true\x7d"⟩⟩
    (probeRequest "http://localhost:3001" "tok")
    ⟨200, "200 OK", Except.ok "\x7b\"ok\":true\x7d"⟩ "\x7b\"ok\":true\x7d"
    (by decide) rfl rfl rfl
  ⟨h.1, h.2.1⟩

/-- C10: for a response whose status code is not 200, the client prints a
failure line holding the status code and the status text, prints the three
troubleshooting tips exactly when the status code is 401, prints neither the
success line nor a response line, never reads the body, and returns normally. -/
theorem non_ok_response_reported (w : World) (q : Request) (resp : Response)
    (hq : q ∈ (main w).sent) (hdo : w.Do q = Except.ok resp)
    (hcode : resp.StatusCode ≠ 200) :
    (main w).stdout =
      ["🚀 Testing Go IAM server at " ++ targetURL w ++ "...\n",
       "❌ Request failed with status: " ++ toString resp.StatusCode ++ " " ++ resp.Status
          ++ "\n"] ++
      (if resp.StatusCode = 401 then
        ["\nTroubleshooting tips:\n",
         "• Check that your JWT token is valid and not expired\n",
         "• Verify the Go IAM server is running on http://localhost:3000\n",
         "• Ensure the example server is running on http://localhost:3001\n"]
       else []) ∧
    (resp.StatusCode = 401 → ∀ tip ∈ troubleshootingLines, tip ++ "\n" ∈ (main w).stdout) ∧
    (resp.StatusCode ≠ 401 → ∀ tip ∈ troubleshootingLines, tip ++ "\n" ∉ (main w).stdout) ∧
    "✅ Request successful!\n" ∉ (main w).stdout ∧
    (∀ b, "Response: " ++ b ++ "\n" ∉ (main w).stdout) ∧
    (main w).bodyReads = 0 ∧
    (main w).result = Result.returned := by
  obtain ⟨htok, hurl, rfl⟩ := eq_probeRequest_of_mem_sent w q hq
  have hrun := main_of_response w resp htok hurl hdo
  have hcode2 : resp.StatusCode ≠ StatusOK := hcode
  simp only [hcode2, ne_eq, not_false_eq_true, if_true] at hrun
  have hout : (main w).stdout =
      [testingLine (targetURL w), failureLine resp.StatusCode resp.Status] ++
      (if resp.StatusCode = 401 then
        ["\nTroubleshooting tips:\n",
         "• Check that your JWT token is valid and not expired\n",
         "• Verify the Go IAM server is running on http://localhost:3000\n",
         "• Ensure the example server is running on http://localhost:3001\n"]
       else []) := by
    rw [hrun]
    split
    · simp [Run.stdout, Println, troubleshootingLines]
    · simp [Run.stdout]
  refine ⟨hout, ?_, ?_, ?_, ?_, ?_, ?_⟩
  · intro h401 tip htip
    rw [hout, if_pos h401]
    simp only [troubleshootingLines, List.mem_cons, List.mem_singleton, List.not_mem_nil,
      or_false] at htip
    rcases htip with rfl | rfl | rfl | rfl <;> simp [String.ext_iff]
  · intro h401 tip htip hmem
    rw [hout, if_neg h401] at hmem
    simp only [troubleshootingLines, List.mem_cons, List.mem_singleton, List.not_mem_nil,
      or_false, List.append_nil] at htip hmem
    rcases htip with rfl | rfl | rfl | rfl <;> rcases hmem with h | h
    all_goals first
      | exact testingLine_ne_of_head _ _ (by decide) h.symm
      | exact failureLine_ne_of_head _ _ _ (by decide) h.symm
  · intro hmem
    rw [hout] at hmem
    split at hmem
    · simp only [List.cons_append, List.nil_append, List.mem_cons, List.mem_singleton,
        List.not_mem_nil, or_false] at hmem
      rcases hmem with h | h | h | h | h | h
      · exact testingLine_ne_of_head _ _ (by decide) h.symm
      · exact failureLine_ne_of_head _ _ _ (by decide) h.symm
      all_goals exact absurd h (by decide)
    · simp only [List.append_nil, List.mem_cons, List.mem_singleton, List.not_mem_nil,
        or_false] at hmem
      rcases hmem with h | h
      · exact testingLine_ne_of_head _ _ (by decide) h.symm
      · exact failureLine_ne_of_head _ _ _ (by decide) h.symm
  · intro b hmem
    have hb : responseLine b ∈ (main w).stdout := hmem
    rw [hout] at hb
    split at hb
    · simp only [List.cons_append, List.nil_append, List.mem_cons, List.mem_singleton,
        List.not_mem_nil, or_false] at hb
      rcases hb with h | h | h | h | h | h
      · exact testingLine_ne_of_head _ _ (by simp [responseLine, String.data_append]) h.symm
      · exact failureLine_ne_of_head _ _ _ (by simp [responseLine, String.data_append]) h.symm
      all_goals exact responseLine_ne_of_head _ _ (by decide) h
    · simp only [List.append_nil, List.mem_cons, List.mem_singleton, List.not_mem_nil,
        or_false] at hb
      rcases hb with h | h
      · exact testingLine_ne_of_head _ _ (by simp [responseLine, String.data_append]) h.symm
      · exact failureLine_ne_of_head _ _ _ (by simp [responseLine, String.data_append]) h.symm
  · rw [hrun]
    split <;> simp [Run.bodyReads, troubleshootingLines, Println]
  · rw [hrun]

theorem non_ok_response_reported_witness :
    (main ⟨envOf [("JWT_TOKEN", "tok")], fun _ => none,
        fun _ => Except.ok ⟨401, "401 Unauthorized", Except.ok "Unauthorized"⟩⟩).stdout =
      ["🚀 Testing Go IAM server at http://localhost:3001...\n",
       "❌ Request failed with status: 401 401 Unauthorized\n",
       "\nTroubleshooting tips:\n",
       "• Check that your JWT token is valid and not expired\n",
       "• Verify the Go IAM server is running on http://localhost:3000\n",
       "• Ensure the example server is running on http://localhost:3001\n"] ∧
    (main ⟨envOf [("JWT_TOKEN", "tok")], fun _ => none,
        fun _ => Except.ok ⟨401, "401 Unauthorized", Except.ok "Unauthorized"⟩⟩).bodyReads = 0 ∧
    (main ⟨envOf [("JWT_TOKEN", "tok")], fun _ => none,
        fun _ => Except.ok ⟨401, "401 Unauthorized", Except.ok "Unauthorized"⟩⟩).result
      = Result.returned :=
  have h := non_ok_response_reported
    ⟨envOf [("JWT_TOKEN", "tok")], fun _ => none,
      fun _ => Except.ok ⟨401, "401 Unauthorized", Except.ok "Unauthorized"⟩⟩
    (probeRequest "http://localhost:3001" "tok")
    ⟨401, "401 Unauthorized", Except.ok "Unauthorized"⟩
    (by decide) rfl (by decide)
  ⟨h.1, h.2.2.2.2.2.1, h.2.2.2.2.2.2⟩

end Client

end GoIam
